import Mathlib

/-!
Verification of the process-orchestration core of the `say` text-to-speech
workflow wrapper (`src/say/main.py`).

The embedding models:
* Python strings as Lean `String` / `List Char` (a Python `str` is a sequence
  of code points), byte streams as `List Nat`;
* the remote command builders `form_tts_cmdline` / `form_bash_cmdline`;
* `shlex.quote` / `shlex.join` (CPython's definition: a string is left bare
  iff it is non-empty and matches `[-a-zA-Z0-9_@%+=:,./]*` under `re.ASCII`,
  otherwise it is single-quoted with `'` escaped as `'"'"'`), together with a
  conservative model of POSIX-shell word splitting of a static command line;
* the guarded synthesis shell script composed by `says` (lines 252-261) as a
  small command language with an explicit shell-state interpreter, and the
  surrounding orchestration of `says` (lines 263-303);
* the playback watchdog `speak_result` (lines 313-366) over an abstract
  description of the conversion step, the diagnostic-line arrival time and
  the player exit code;
* the speaker-enumeration read loop of `list_speakers` (lines 141-167).

Child processes are modelled by records giving their observable behaviour
(exit code, bytes on stdout, diagnostic lines on stderr), and each routine is
a pure function from that behaviour plus the relevant pre-state to the
observable outcome (cache-file contents, emitted response, log events).
-/

namespace Say

/-! ### Remote command builder (`form_tts_cmdline`, `form_bash_cmdline`) -/

/-- Embeds `form_tts_cmdline` (main.py lines 75-85): start from an empty
vector, extend with `['ssh', host]` when `host` is truthy (Python truthiness:
`None` and the empty string are falsy), append the engine path, extend with
`argv`. -/
def form_tts_cmdline (host : Option String) (tts_bin : String)
    (argv : List String) : List String :=
  match host with
  | some h => if h.isEmpty then tts_bin :: argv else "ssh" :: h :: tts_bin :: argv
  | none => tts_bin :: argv

/-- Embeds `form_bash_cmdline` (main.py lines 88-93): `['ssh', host, 'bash']`
when `host` is truthy, else `['bash']`. -/
def form_bash_cmdline (host : Option String) : List String :=
  match host with
  | some h => if h.isEmpty then ["bash"] else "ssh" :: h :: ["bash"]
  | none => ["bash"]

/-- Modelled from the spec's Remote Command Builder contract (spec section
4.1): if the endpoint is set, prepend the two tokens `ssh`, endpoint before
the base vector; otherwise return the base vector unchanged.  Used as the
refinement target for `form_tts_cmdline` and `form_bash_cmdline`. -/
def buildCommand (endpoint : Option String) (base : List String) : List String :=
  match endpoint with
  | some h => "ssh" :: h :: base
  | none => base

/-! ### `shlex.quote` / `shlex.join` and POSIX word splitting -/

/-- The single-quote character. -/
def squote : Char := Char.ofNat 39

/-- The double-quote character. -/
def dquote : Char := Char.ofNat 34

/-- A character CPython's `shlex.quote` leaves unquoted: `re.ASCII` word
characters (ASCII letters, digits, underscore) or one of `-@%+=:,./`. -/
def shlexSafeChar (c : Char) : Bool :=
  c.isAlphanum || c == '_' || c == '@' || c == '%' || c == '+' || c == '=' ||
    c == ':' || c == ',' || c == '.' || c == '/' || c == '-'

/-- The image of one character under `shlex.quote`'s escaping inside a
single-quoted region: `'` becomes `'"'"'`, every other character is kept. -/
def quoteEsc (c : Char) : List Char :=
  if c = squote then [squote, dquote, squote, dquote, squote] else [c]

/-- `s.replace("'", "'\"'\"'")`, character by character. -/
def escBody : List Char → List Char
  | [] => []
  | c :: cs => quoteEsc c ++ escBody cs

/-- Embeds CPython's `shlex.quote` on the character list of a string:
empty strings become `''`; strings of safe characters are returned bare;
anything else is wrapped in single quotes with embedded `'` escaped. -/
def shlexQuoteL (s : List Char) : List Char :=
  if s = [] then [squote, squote]
  else if s.all shlexSafeChar then s
  else squote :: escBody s ++ [squote]

/-- Embeds CPython's `shlex.join`: the quoted arguments joined by single
spaces. -/
def shlexJoinL : List (List Char) → List Char
  | [] => []
  | [w] => shlexQuoteL w
  | w :: ws => shlexQuoteL w ++ ' ' :: shlexJoinL ws

/-- String-level `shlex.quote`. -/
def shlex_quote (s : String) : String := String.mk (shlexQuoteL s.data)

/-- String-level `shlex.join`, as used at main.py line 257 to splice the
engine invocation into the guard script. -/
def shlex_join (args : List String) : String :=
  String.mk (shlexJoinL (args.map String.data))

/-- Default IFS separators for POSIX field splitting: space, tab, newline. -/
def isIFS (c : Char) : Bool :=
  c == ' ' || c == Char.ofNat 9 || c == Char.ofNat 10

/-- Characters that are special inside a double-quoted shell region:
`$`, backtick, backslash. -/
def dqSpecial (c : Char) : Bool :=
  c == Char.ofNat 36 || c == Char.ofNat 96 || c == Char.ofNat 92

/-- Lexing mode of the POSIX word splitter: outside any quotes, inside
single quotes, inside double quotes. -/
inductive SplitMode where
  | norm
  | insq
  | indq
deriving DecidableEq

/-- A conservative model of POSIX-shell word splitting of one static command
line: words are accumulated character by character, single-quoted regions are
literal, double-quoted regions are literal except that `$`, backtick and
backslash are refused.  The splitter returns `none` (refuses to split) on any
construct whose shell meaning is not "this literal character": an unquoted
character outside `shlexSafeChar` (operators, globs, expansions, tildes,
comments, ...), a special character inside double quotes, or an unterminated
quote.  `started` records whether the current word has begun (so that quoted
empty words are kept), `acc` holds the current word reversed. -/
def splitPosix : List Char → SplitMode → Bool → List Char → Option (List (List Char))
  | [], .norm, started, acc => some (if started then [acc.reverse] else [])
  | [], .insq, _, _ => none
  | [], .indq, _, _ => none
  | c :: cs, .norm, started, acc =>
    if isIFS c then
      match splitPosix cs .norm false [] with
      | none => none
      | some ws => some (if started then acc.reverse :: ws else ws)
    else if c = squote then splitPosix cs .insq true acc
    else if c = dquote then splitPosix cs .indq true acc
    else if shlexSafeChar c then splitPosix cs .norm true (c :: acc)
    else none
  | c :: cs, .insq, started, acc =>
    if c = squote then splitPosix cs .norm started acc
    else splitPosix cs .insq started (c :: acc)
  | c :: cs, .indq, started, acc =>
    if c = dquote then splitPosix cs .norm started acc
    else if dqSpecial c then none
    else splitPosix cs .indq started (c :: acc)

/-- Word splitting of a whole static command line. -/
def shellSplit (l : List Char) : Option (List (List Char)) :=
  splitPosix l .norm false []

/-! ### The synthesis engine invocation (`says`, lines 235-251) -/

/-- The private fixed temp path used by `says` (main.py line 235). -/
def tmp_output : String := "/tmp/tts_output.wav"

/-- A conditionally appended flag pair: `if v: cmd.extend([flag, v])` with
Python truthiness (absent and empty are falsy). -/
def optFlagArg (flag : String) : Option String → List String
  | none => []
  | some s => if s.isEmpty then [] else [flag, s]

/-- Embeds the `tts_cmd` argument vector built at main.py lines 236-251:
engine path, `--text message`, `--out_path tmp_output`, `--pipe_out`, then
conditionally `--use_cuda`, `--model_name`, `--speaker_idx`,
`--language_idx`. -/
def tts_cmd (tts_bin message : String)
    (device model speaker lang : Option String) : List String :=
  [tts_bin, "--text", message, "--out_path", tmp_output, "--pipe_out"]
    ++ optFlagArg "--use_cuda" device
    ++ optFlagArg "--model_name" model
    ++ optFlagArg "--speaker_idx" speaker
    ++ optFlagArg "--language_idx" lang

/-! ### The guard script and its shell semantics (`says`, lines 252-261) -/

/-- Observable behaviour of one invocation of the synthesis engine: its exit
code (as seen by the shell's `$?`), the bytes it writes to stdout
(`--pipe_out`), its diagnostic lines on stderr, and whether it leaves a file
at the private temp path (`--out_path`). -/
structure EngineBehavior where
  exitCode : Nat
  stdoutBytes : List Nat
  stderrLines : List String
  createsTmp : Bool

/-- Shell state threaded through the guard script: whether the private temp
path exists, the `retcode` shell variable, the last command status `$?`, the
bytes written to the script's stdout, the diagnostic lines written to its
stderr, and how many times the engine was invoked. -/
structure ShState where
  tmpExists : Bool
  retcodeVar : Option Nat
  lastStatus : Nat
  stdoutBytes : List Nat
  stderrLines : List String
  engineRuns : Nat

/-- The command language of the guard script composed at main.py lines
252-261, one constructor per script construct:
* `ifTmpExistsEchoExit msg code` — `if [ -f TMP ]; then echo msg >&2; exit code; fi`
  (lines 253-256);
* `engine` — the `shlex.join(tts_cmd)` engine invocation (line 257);
* `assignRetcodeStatus` — `retcode=$?` (line 258);
* `rmForceTmp` — `rm -f TMP` (line 259, always succeeds);
* `exitRetcodeVar` — `exit $retcode` (line 260). -/
inductive GuardCmd where
  | ifTmpExistsEchoExit (msg : String) (code : Nat)
  | engine
  | assignRetcodeStatus
  | rmForceTmp
  | exitRetcodeVar

/-- Runs a list of guard-script commands over a shell state, given the
engine's behaviour.  Returns `(some code, st)` when the script executed an
explicit `exit`, `(none, st)` when it ran off the end (in which case the
shell exits with the last command's status). -/
def runCmds (eng : EngineBehavior) : List GuardCmd → ShState → Option Nat × ShState
  | [], st => (none, st)
  | .ifTmpExistsEchoExit msg code :: cs, st =>
    if st.tmpExists then
      (some code, { st with stderrLines := st.stderrLines ++ [msg] })
    else
      runCmds eng cs { st with lastStatus := 0 }
  | .engine :: cs, st =>
    runCmds eng cs { st with
      engineRuns := st.engineRuns + 1,
      stdoutBytes := st.stdoutBytes ++ eng.stdoutBytes,
      stderrLines := st.stderrLines ++ eng.stderrLines,
      tmpExists := st.tmpExists || eng.createsTmp,
      lastStatus := eng.exitCode }
  | .assignRetcodeStatus :: cs, st =>
    runCmds eng cs { st with retcodeVar := some st.lastStatus, lastStatus := 0 }
  | .rmForceTmp :: cs, st =>
    runCmds eng cs { st with tmpExists := false, lastStatus := 0 }
  | .exitRetcodeVar :: _, st => (some (st.retcodeVar.getD st.lastStatus), st)

/-- The guard script of main.py lines 252-261, transcribed command by
command. -/
def guard_script : List GuardCmd :=
  [ .ifTmpExistsEchoExit (tmp_output ++ " already exists") 1,
    .engine,
    .assignRetcodeStatus,
    .rmForceTmp,
    .exitRetcodeVar ]

/-- Initial shell state: only the prior existence of the private temp path
varies between runs. -/
def initShState (tmpExists : Bool) : ShState :=
  { tmpExists := tmpExists, retcodeVar := none, lastStatus := 0,
    stdoutBytes := [], stderrLines := [], engineRuns := 0 }

/-- Runs the whole guard script and yields the script's exit code together
with the final shell state. -/
def runGuard (eng : EngineBehavior) (tmpExists : Bool) : Nat × ShState :=
  match runCmds eng guard_script (initShState tmpExists) with
  | (some n, st) => (n, st)
  | (none, st) => (st.lastStatus, st)

/-! ### The `says` orchestration (lines 263-303) -/

/-- The two script-filter JSON responses `says` can print: success carries
the cache artifact path as `arg` (lines 284-292), failure is the invalid
"Error occurs" item (lines 294-302). -/
inductive AlfredResp where
  | received (arg : String)
  | errorInvalid
deriving DecidableEq

/-- The relative path of the Cache Artifact, `cachedir / 'speech.wav'`
(main.py line 263). -/
def speech_output : String := "speech.wav"

/-- The world a `says` run starts in: whether the private temp path already
exists on the engine host, the engine's behaviour if invoked, and the
contents of a pre-existing Cache Artifact at `cachedir/speech.wav` (or `none`
when absent). -/
structure SaysWorld where
  tmpExists : Bool
  engine : EngineBehavior
  preCache : Option (List Nat)

/-- The observable outcome of a `says` run: contents of the Cache Artifact
after orchestration returns (`none` when the file does not exist), the
child's exit code, the printed response, the exit code carried by the
`logger.error` report (if any), how many times the engine ran, and whether
the private temp path exists afterwards. -/
structure SaysResult where
  cacheAfter : Option (List Nat)
  retcode : Nat
  response : AlfredResp
  loggedError : Option Nat
  engineRuns : Nat
  tmpAfter : Bool
deriving DecidableEq

/-- Embeds `says` (main.py lines 263-303; the source's name `says` is a
reserved token in this development's tactic library, hence `saysRun`): run
the guard script through
`bash`, stream the child's stdout byte-for-byte into `cachedir/speech.wav`
(`open(output, 'wb')` creates or truncates the file regardless of what was
there, so `w.preCache` never survives), drain stderr, wait for the exit
code; on nonzero exit unlink the output and log the code, then print the
success or failure response. -/
def saysRun (w : SaysWorld) : SaysResult :=
  let r := runGuard w.engine w.tmpExists
  let retcode := r.1
  let st := r.2
  let cacheWritten : Option (List Nat) := some st.stdoutBytes
  let cacheFinal := if retcode = 0 then cacheWritten else none
  { cacheAfter := cacheFinal,
    retcode := retcode,
    response := if retcode = 0 then .received speech_output else .errorInvalid,
    loggedError := if retcode = 0 then none else some retcode,
    engineRuns := st.engineRuns,
    tmpAfter := st.tmpExists }

/-! ### The playback watchdog (`speak_result`, lines 313-366) -/

/-- The distinct outcomes `speak_result` reports (via its log and return
paths): conversion failure (line 323), failure to launch the player (line
359), a nonzero player exit (lines 362-365), or success (falling through). -/
inductive SpeakOutcome where
  | conversionFailed (code : Nat)
  | failedToLaunch
  | runtimeFailure (code : Nat)
  | success
deriving DecidableEq

/-- Observable trace of one `speak_result` run: whether the player-driver
process was spawned, whether it was forcibly terminated, whether the
watchdog waited for it after terminating, whether it waited for natural
completion, and the reported outcome. -/
structure SpeakTrace where
  playerLaunched : Bool
  terminated : Bool
  waitedAfterTerminate : Bool
  waitedNaturally : Bool
  outcome : SpeakOutcome
deriving DecidableEq

/-- The fixed watchdog window: `q.get(timeout=5)` at main.py line 353. -/
def watchdogTimeout : Nat := 5

/-- Whether the blocking queue pop returns a line within `timeout` time
units: the background reader makes the first diagnostic line available at
time `arrival` (or never, when the player writes nothing to stderr). -/
def queueGetWithin (arrival : Option Nat) (timeout : Nat) : Bool :=
  match arrival with
  | some t => t ≤ timeout
  | none => false

/-- Embeds `speak_result` (main.py lines 313-366) over the conversion step's
exit code, the arrival time of the first diagnostic line, and the player's
exit code: `ffmpeg` is run synchronously with `check=True`, so a nonzero
conversion exit aborts before the player is launched (lines 320-324);
otherwise the player is spawned, a daemon reader feeds its stderr into a
queue, and a single pop with timeout 5 decides between forced termination
(lines 354-360) and a natural wait whose exit code selects success or
runtime failure (lines 361-366). -/
def speak_result (ffmpegExit : Nat) (arrival : Option Nat)
    (playerExit : Nat) : SpeakTrace :=
  if ffmpegExit ≠ 0 then
    { playerLaunched := false, terminated := false, waitedAfterTerminate := false,
      waitedNaturally := false, outcome := .conversionFailed ffmpegExit }
  else if queueGetWithin arrival watchdogTimeout then
    { playerLaunched := true, terminated := false, waitedAfterTerminate := false,
      waitedNaturally := true,
      outcome := if playerExit = 0 then .success else .runtimeFailure playerExit }
  else
    { playerLaunched := true, terminated := true, waitedAfterTerminate := true,
      waitedNaturally := false, outcome := .failedToLaunch }

/-! ### The speaker-enumeration reader (`list_speakers`, lines 141-167) -/

/-- Python whitespace stripped by `str.strip()` (ASCII part): space, tab,
newline, carriage return, form feed, vertical tab. -/
def isPySpace (c : Char) : Bool :=
  c == ' ' || c == Char.ofNat 9 || c == Char.ofNat 10 || c == Char.ofNat 13 ||
    c == Char.ofNat 12 || c == Char.ofNat 11

/-- `line.strip()` on the character list. -/
def pyStripL (s : List Char) : List Char :=
  ((s.dropWhile isPySpace).reverse.dropWhile isPySpace).reverse

/-- `line.strip()`. -/
def pyStrip (s : String) : String := String.mk (pyStripL s.data)

/-- `s.startswith(pre)` on character lists. -/
def startsWithL (s pre : List Char) : Bool :=
  s.take pre.length == pre

/-- `pat in s` (substring containment) on character lists. -/
def hasSubL (pat : List Char) : List Char → Bool
  | [] => pat == []
  | c :: cs => (c :: cs).take pat.length == pat || hasSubL pat cs

/-- The terminal-pattern test of main.py line 153:
`line.startswith('dict_keys([')`. -/
def isDictKeysLine (line : String) : Bool :=
  startsWithL line.data "dict_keys([".data

/-- The prompt-detection test of main.py line 157:
`'I agree to the terms' in line`. -/
def isAgreeLine (line : String) : Bool :=
  hasSubL "I agree to the terms".data line.data

/-- Embeds the slicing and splitting of main.py lines 154-155: strip the
`dict_keys([` prefix and `])` suffix, split on `', '`, strip one quote
character from each side of every piece. -/
def parse_speakers (line : String) : List String :=
  (((line.drop 11).dropRight 2).splitOn ", ").map fun x => (x.drop 1).dropRight 1

/-- Embeds the `for line in proc.stdout` loop of main.py lines 150-161 with
its `for ... else` clause: each line is stripped; a `dict_keys([` line yields
the parsed speaker list and stops reading; an agreement prompt causes `y\n`
to be written to the child's stdin; if the loop ends without seeing the
terminal pattern, the result is the absent sentinel `None` (line 161).
Returns the speaker result and the accumulated stdin writes. -/
def readSpeakers : List String → Option (List String) × List String
  | [] => (none, [])
  | l :: ls =>
    let line := pyStrip l
    if isDictKeysLine line then (some (parse_speakers line), [])
    else
      let rest := readSpeakers ls
      (rest.1, (if isAgreeLine line then ["y\n"] else []) ++ rest.2)

/-- Outcome of the line-oriented reader portion of `list_speakers`: the
accumulated speaker result (`none` = the "not found" sentinel), the scripted
stdin responses, and the reported child exit code. -/
structure ReaderRun where
  speakers : Option (List String)
  stdinWrites : List String
  retcode : Nat
deriving DecidableEq

/-- Embeds the process-reading section of `list_speakers` (main.py lines
141-163): run the read loop over the child's (merged stdout+stderr) lines,
then `retcode = proc.wait()` — the exit code is recorded and returned to the
caller unchanged; no exception path exists for a nonzero exit. -/
def list_speakers_probe (lines : List String) (exitCode : Nat) : ReaderRun :=
  { speakers := (readSpeakers lines).1,
    stdinWrites := (readSpeakers lines).2,
    retcode := exitCode }

end Say

namespace Say

/-! ### Helper lemmas about the quoting round trip -/

/-- A `shlex`-safe character is not an IFS separator and is not a quote. -/
theorem safe_char_facts (c : Char) (h : shlexSafeChar c = true) :
    isIFS c = false ∧ c ≠ squote ∧ c ≠ dquote := by
  refine ⟨?_, ?_, ?_⟩
  · cases hif : isIFS c
    · rfl
    · exfalso
      simp only [isIFS, Bool.or_eq_true, beq_iff_eq] at hif
      rcases hif with (h1 | h1) | h1 <;> subst h1 <;> exact absurd h (by decide)
  · rintro rfl; exact absurd h (by decide)
  · rintro rfl; exact absurd h (by decide)

/-- The splitter consumes a run of safe characters into the current word. -/
theorem split_safe_run (w : List Char) :
    ∀ (st : Bool) (acc rest : List Char), w.all shlexSafeChar = true →
      splitPosix (w ++ rest) .norm st acc
        = splitPosix rest .norm (st || !w.isEmpty) (w.reverse ++ acc) := by
  induction w with
  | nil => intro st acc rest _; simp
  | cons c w ih =>
    intro st acc rest hw
    rw [List.all_cons, Bool.and_eq_true] at hw
    obtain ⟨hc, hw⟩ := hw
    obtain ⟨h1, h2, h3⟩ := safe_char_facts c hc
    rw [List.cons_append]
    simp only [splitPosix, h1, h2, h3, hc, Bool.false_eq_true, if_false, if_true,
      ite_false, ite_true, if_neg, Bool.true_eq_false]
    rw [ih true (c :: acc) rest hw]
    cases w with
    | nil => simp
    | cons d w => simp [List.append_assoc]

/-- Inside a single-quoted region, the escaped body of a word (with `'`
escaped as `'"'"'`) is consumed literally up to the closing quote. -/
theorem split_esc_run (s : List Char) :
    ∀ (acc rest : List Char),
      splitPosix (escBody s ++ squote :: rest) .insq true acc
        = splitPosix rest .norm true (s.reverse ++ acc) := by
  induction s with
  | nil =>
    intro acc rest
    simp [escBody, splitPosix]
  | cons c s ih =>
    intro acc rest
    by_cases hc : c = squote
    · subst hc
      have hd1 : dquote ≠ squote := by decide
      have hd2 : squote ≠ dquote := by decide
      have hd3 : isIFS dquote = false := by decide
      have hd4 : dqSpecial squote = false := by decide
      have hd5 : isIFS squote = false := by decide
      simp only [escBody, quoteEsc, if_pos rfl, List.cons_append, List.append_assoc,
        List.singleton_append]
      simp only [splitPosix, hd1, hd2, hd3, hd4, hd5, if_pos rfl, if_neg,
        Bool.false_eq_true, if_false, ite_true, ite_false]
      simp only [List.append_eq, List.nil_append]
      rw [ih (squote :: acc) rest]
      simp [List.append_assoc]
    · simp only [escBody, quoteEsc, if_neg hc, List.cons_append, List.singleton_append]
      simp only [splitPosix, if_neg hc]
      simp only [List.append_eq, List.nil_append]
      rw [ih (c :: acc) rest]
      simp [List.append_assoc]

/-- Splitting one `shlex.quote`-d word appends exactly that word to the word
in progress, whatever the original word contained. -/
theorem split_word (w : List Char) (rest : List Char) (st : Bool) (acc : List Char) :
    splitPosix (shlexQuoteL w ++ rest) .norm st acc
      = splitPosix rest .norm true (w.reverse ++ acc) := by
  have hd5 : isIFS squote = false := by decide
  by_cases h0 : w = []
  · subst h0
    simp [shlexQuoteL, splitPosix, hd5]
  · rw [shlexQuoteL, if_neg h0]
    by_cases hs : w.all shlexSafeChar = true
    · rw [if_pos hs, split_safe_run w st acc rest hs]
      have he : w.isEmpty = false := by
        cases w with
        | nil => exact absurd rfl h0
        | cons c w => rfl
      simp [he]
    · rw [if_neg hs]
      have hre : (squote :: escBody w ++ [squote]) ++ rest
          = squote :: (escBody w ++ squote :: rest) := by
        simp [List.append_assoc]
      rw [hre]
      simp only [splitPosix, hd5, if_pos rfl, Bool.false_eq_true, if_false, ite_false,
        ite_true]
      exact split_esc_run w acc rest

/-- Round trip: POSIX word splitting of `shlex.join args` recovers `args`
exactly, for every argument vector. -/
theorem split_join (args : List (List Char)) :
    splitPosix (shlexJoinL args) .norm false [] = some args := by
  induction args with
  | nil => simp [shlexJoinL, splitPosix]
  | cons w ws ih =>
    cases ws with
    | nil =>
      have h := split_word w [] false []
      simpa [shlexJoinL, splitPosix] using h
    | cons v vs =>
      have hj : shlexJoinL (w :: v :: vs) = shlexQuoteL w ++ ' ' :: shlexJoinL (v :: vs) :=
        rfl
      rw [hj, split_word w (' ' :: shlexJoinL (v :: vs)) false []]
      have hsp : isIFS ' ' = true := by decide
      simp only [splitPosix, hsp, if_true, ite_true]
      rw [ih]
      simp

/-- If the terminal `dict_keys([` pattern is never seen on any (stripped)
line, the read loop of `list_speakers` falls through its `for ... else` and
yields the absent sentinel. -/
theorem readSpeakers_not_found (lines : List String)
    (h : ∀ l ∈ lines, isDictKeysLine (pyStrip l) = false) :
    (readSpeakers lines).1 = none := by
  induction lines with
  | nil => rfl
  | cons l ls ih =>
    have hl := h l (List.mem_cons_self l ls)
    simp [readSpeakers, hl, ih fun x hx => h x (List.mem_cons_of_mem l hx)]

/-! ### Claim theorems -/

/-- C1, counterexample: the claim also asserts that no pre-existing Cache
Artifact from a different run is deleted or modified on a temp-path
collision.  At this concrete input the private temp path exists and a Cache
Artifact with contents `[1, 2, 3]` is present from an earlier run; the engine
is indeed never invoked and the script exits 1, but after orchestration the
Cache Artifact is gone (`says` opens `cachedir/speech.wav` with mode `'wb'`,
truncating it, and then unlinks it on the nonzero exit), so the conjunct
about preserving the pre-existing artifact is false on the code. -/
theorem C1_counterexample :
    (saysRun ⟨true, ⟨0, [9, 9], [], true⟩, some [1, 2, 3]⟩).engineRuns = 0 ∧
    (saysRun ⟨true, ⟨0, [9, 9], [], true⟩, some [1, 2, 3]⟩).retcode = 1 ∧
    (⟨true, ⟨0, [9, 9], [], true⟩, some [1, 2, 3]⟩ : SaysWorld).preCache = some [1, 2, 3] ∧
    (saysRun ⟨true, ⟨0, [9, 9], [], true⟩, some [1, 2, 3]⟩).cacheAfter = none := by
  decide

/-- C1 (amended): for every synthesis request, if the private temp path
already exists before invocation, the engine is never invoked, the
orchestrator reports a collision failure (nonzero script exit, invalid
response item) and leaves the temp path untouched; however the Cache
Artifact at the fixed cache path does not survive the attempt — it is
truncated and then deleted, whatever its previous contents. -/
theorem C1_collision_guard (eng : EngineBehavior) (pre : Option (List Nat)) :
    (saysRun ⟨true, eng, pre⟩).engineRuns = 0 ∧
    (saysRun ⟨true, eng, pre⟩).retcode = 1 ∧
    (saysRun ⟨true, eng, pre⟩).response = AlfredResp.errorInvalid ∧
    (saysRun ⟨true, eng, pre⟩).tmpAfter = true ∧
    (saysRun ⟨true, eng, pre⟩).cacheAfter = none := by
  simp [saysRun, runGuard, runCmds, guard_script, initShState]

/-- C2: for every completed synthesis attempt, a nonzero child exit code
makes the orchestrator delete the Cache Artifact, print the failure
response, and report the failure carrying the exit code (the
`logger.error` call at main.py line 282); a zero exit code yields the
success response carrying the Cache Artifact path, the artifact holding the
child's stdout bytes. -/
theorem C2_exit_dispatch (w : SaysWorld) :
    ((saysRun w).retcode ≠ 0 →
      (saysRun w).cacheAfter = none ∧
      (saysRun w).response = AlfredResp.errorInvalid ∧
      (saysRun w).loggedError = some (saysRun w).retcode) ∧
    ((saysRun w).retcode = 0 →
      (saysRun w).response = AlfredResp.received speech_output ∧
      (saysRun w).cacheAfter = some (runGuard w.engine w.tmpExists).2.stdoutBytes) := by
  by_cases hc : (runGuard w.engine w.tmpExists).1 = 0 <;>
    simp [saysRun, hc]

/-- C2, witness: a failing run (engine exits 1) and a succeeding run
(engine exits 0), evaluated concretely through `C2_exit_dispatch`. -/
theorem C2_witness :
    ((saysRun ⟨false, ⟨1, [7], [], true⟩, none⟩).cacheAfter = none ∧
     (saysRun ⟨false, ⟨1, [7], [], true⟩, none⟩).response = AlfredResp.errorInvalid ∧
     (saysRun ⟨false, ⟨1, [7], [], true⟩, none⟩).loggedError
       = some (saysRun ⟨false, ⟨1, [7], [], true⟩, none⟩).retcode) ∧
    ((saysRun ⟨false, ⟨0, [7], [], true⟩, none⟩).response
       = AlfredResp.received speech_output ∧
     (saysRun ⟨false, ⟨0, [7], [], true⟩, none⟩).cacheAfter
       = some (runGuard ⟨0, [7], [], true⟩ false).2.stdoutBytes) :=
  ⟨(C2_exit_dispatch ⟨false, ⟨1, [7], [], true⟩, none⟩).1 (by decide),
   (C2_exit_dispatch ⟨false, ⟨0, [7], [], true⟩, none⟩).2 (by decide)⟩

/-- C3: on synthesis success the Cache Artifact exists and its contents are
exactly the bytes the child wrote to its stdout during the run (which are
the engine's `--pipe_out` bytes); on synthesis failure the Cache Artifact
does not exist after orchestration returns. -/
theorem C3_artifact_invariant (w : SaysWorld) :
    ((saysRun w).retcode = 0 →
      (saysRun w).cacheAfter = some (runGuard w.engine w.tmpExists).2.stdoutBytes ∧
      (runGuard w.engine w.tmpExists).2.stdoutBytes = w.engine.stdoutBytes) ∧
    ((saysRun w).retcode ≠ 0 → (saysRun w).cacheAfter = none) := by
  obtain ⟨te, eng, pre⟩ := w
  cases te
  · by_cases hc : eng.exitCode = 0 <;>
      simp [saysRun, runGuard, runCmds, guard_script, initShState, hc]
  · simp [saysRun, runGuard, runCmds, guard_script, initShState]

/-- C3, witness: a successful run whose artifact holds exactly the engine's
stdout bytes `[65, 66]`, and a failing run whose artifact is absent. -/
theorem C3_witness :
    ((saysRun ⟨false, ⟨0, [65, 66], [], true⟩, none⟩).cacheAfter
       = some (runGuard ⟨0, [65, 66], [], true⟩ false).2.stdoutBytes ∧
     (runGuard ⟨0, [65, 66], [], true⟩ false).2.stdoutBytes = [65, 66]) ∧
    (saysRun ⟨false, ⟨2, [65], [], false⟩, some [9]⟩).cacheAfter = none :=
  ⟨(C3_artifact_invariant ⟨false, ⟨0, [65, 66], [], true⟩, none⟩).1 (by decide),
   (C3_artifact_invariant ⟨false, ⟨2, [65], [], false⟩, some [9]⟩).2 (by decide)⟩

/-- C4: the guard script (a) on a pre-existing temp path exits 1 with the
diagnostic line on stderr and never runs the engine; (b) otherwise runs the
engine exactly once, captures the engine's exit code in `retcode`, removes
the temp path unconditionally, and exits with the engine's captured exit
code — not with the status of the cleanup step, whose status 0 is the last
command status and is visibly distinct from the script's exit code. -/
theorem C4_guard_script_contract (eng : EngineBehavior) :
    ((runGuard eng true).1 = 1 ∧
     (runGuard eng true).2.engineRuns = 0 ∧
     (runGuard eng true).2.stderrLines = [tmp_output ++ " already exists"]) ∧
    ((runGuard eng false).2.engineRuns = 1 ∧
     (runGuard eng false).2.retcodeVar = some eng.exitCode ∧
     (runGuard eng false).2.tmpExists = false ∧
     (runGuard eng false).2.lastStatus = 0 ∧
     (runGuard eng false).1 = eng.exitCode) := by
  simp [runGuard, runCmds, guard_script, initShState]

/-- C5: the remote command builder returns the base vector unchanged when
the endpoint is absent and prefixes exactly `ssh`, endpoint when it is set,
including the two concrete examples of the claim; `form_tts_cmdline` and
`form_bash_cmdline` refine this contract on their base vectors whenever the
endpoint is absent or a non-empty host (which `get_host` guarantees).  Both
are plain functions of their arguments: purity is inherent in the model. -/
theorem C5_remote_wrapping :
    (∀ base : List String, buildCommand none base = base) ∧
    (∀ (h : String) (base : List String), buildCommand (some h) base = "ssh" :: h :: base) ∧
    buildCommand none ["x", "y"] = ["x", "y"] ∧
    buildCommand (some "host1") ["x", "y"] = ["ssh", "host1", "x", "y"] ∧
    (∀ (tts_bin : String) (argv : List String),
      form_tts_cmdline none tts_bin argv = buildCommand none (tts_bin :: argv)) ∧
    (∀ (h tts_bin : String) (argv : List String), h.isEmpty = false →
      form_tts_cmdline (some h) tts_bin argv = buildCommand (some h) (tts_bin :: argv)) ∧
    form_bash_cmdline none = buildCommand none ["bash"] ∧
    (∀ h : String, h.isEmpty = false →
      form_bash_cmdline (some h) = buildCommand (some h) ["bash"]) := by
  refine ⟨fun base => rfl, fun h base => rfl, rfl, rfl, fun t a => rfl, ?_, ?_, ?_⟩
  · intro h t a he
    simp [form_tts_cmdline, buildCommand, he]
  · rfl
  · intro h he
    simp [form_bash_cmdline, buildCommand, he]

/-- C5, witness: both refinement components at the concrete host `host1`. -/
theorem C5_witness :
    form_tts_cmdline (some "host1") "x" ["y"] = buildCommand (some "host1") ("x" :: ["y"]) ∧
    form_bash_cmdline (some "host1") = buildCommand (some "host1") ["bash"] :=
  ⟨C5_remote_wrapping.2.2.2.2.2.1 "host1" "x" ["y"] (by decide),
   C5_remote_wrapping.2.2.2.2.2.2.2 "host1" (by decide)⟩

/-- C6: when no diagnostic line arrives on the queue within the fixed
5-unit timeout, the watchdog forcibly terminates the player, waits for it,
and reports the `failedToLaunch` outcome, which is distinct from runtime
failure and from success. -/
theorem C6_watchdog_timeout (arrival : Option Nat) (playerExit : Nat)
    (h : queueGetWithin arrival watchdogTimeout = false) :
    watchdogTimeout = 5 ∧
    (speak_result 0 arrival playerExit).playerLaunched = true ∧
    (speak_result 0 arrival playerExit).terminated = true ∧
    (speak_result 0 arrival playerExit).waitedAfterTerminate = true ∧
    (speak_result 0 arrival playerExit).waitedNaturally = false ∧
    (speak_result 0 arrival playerExit).outcome = SpeakOutcome.failedToLaunch ∧
    (∀ c, SpeakOutcome.failedToLaunch ≠ SpeakOutcome.runtimeFailure c) ∧
    SpeakOutcome.failedToLaunch ≠ SpeakOutcome.success := by
  have h5 : queueGetWithin arrival 5 = false := h
  simp [speak_result, watchdogTimeout, h5]

/-- C6, witness: a player that never writes a diagnostic line (`arrival =
none`, the stub driver of the spec's test), evaluated through
`C6_watchdog_timeout`. -/
theorem C6_witness :
    watchdogTimeout = 5 ∧
    (speak_result 0 none 0).playerLaunched = true ∧
    (speak_result 0 none 0).terminated = true ∧
    (speak_result 0 none 0).waitedAfterTerminate = true ∧
    (speak_result 0 none 0).waitedNaturally = false ∧
    (speak_result 0 none 0).outcome = SpeakOutcome.failedToLaunch ∧
    (∀ c, SpeakOutcome.failedToLaunch ≠ SpeakOutcome.runtimeFailure c) ∧
    SpeakOutcome.failedToLaunch ≠ SpeakOutcome.success :=
  C6_watchdog_timeout none 0 (by decide)

/-- C7: when a diagnostic line arrives within the window, the watchdog does
not terminate the player and waits for natural completion; exit 0 is
reported as success, any nonzero exit as the distinct runtime failure
carrying that code. -/
theorem C7_watchdog_playing (t playerExit : Nat) (h : t ≤ watchdogTimeout) :
    (speak_result 0 (some t) playerExit).playerLaunched = true ∧
    (speak_result 0 (some t) playerExit).terminated = false ∧
    (speak_result 0 (some t) playerExit).waitedNaturally = true ∧
    (playerExit = 0 → (speak_result 0 (some t) playerExit).outcome = SpeakOutcome.success) ∧
    (playerExit ≠ 0 →
      (speak_result 0 (some t) playerExit).outcome = SpeakOutcome.runtimeFailure playerExit) ∧
    (∀ c, SpeakOutcome.runtimeFailure c ≠ SpeakOutcome.failedToLaunch) := by
  have hq : queueGetWithin (some t) watchdogTimeout = true := by
    simp [queueGetWithin, h]
  by_cases hp : playerExit = 0 <;> simp [speak_result, hq, hp]

/-- C7, witness: a line at time 1 with player exit 2 yields runtime failure
carrying 2; with player exit 0 it yields success; neither run terminates the
player. -/
theorem C7_witness :
    (speak_result 0 (some 1) 2).outcome = SpeakOutcome.runtimeFailure 2 ∧
    (speak_result 0 (some 1) 0).outcome = SpeakOutcome.success ∧
    (speak_result 0 (some 1) 2).terminated = false := by
  refine ⟨(C7_watchdog_playing 1 2 (by decide)).2.2.2.2.1 (by decide),
    (C7_watchdog_playing 1 0 (by decide)).2.2.2.1 rfl,
    (C7_watchdog_playing 1 2 (by decide)).2.1⟩

/-- C8: a nonzero conversion exit aborts playback before the player is
launched: no termination, no waiting, no watchdog transition — the failure
is reported immediately as the conversion outcome. -/
theorem C8_conversion_failfast (code : Nat) (arrival : Option Nat) (playerExit : Nat)
    (h : code ≠ 0) :
    (speak_result code arrival playerExit).playerLaunched = false ∧
    (speak_result code arrival playerExit).terminated = false ∧
    (speak_result code arrival playerExit).waitedNaturally = false ∧
    (speak_result code arrival playerExit).waitedAfterTerminate = false ∧
    (speak_result code arrival playerExit).outcome = SpeakOutcome.conversionFailed code := by
  simp [speak_result, h]

/-- C8, witness: conversion exit 1, evaluated through
`C8_conversion_failfast`. -/
theorem C8_witness :
    (speak_result 1 none 0).playerLaunched = false ∧
    (speak_result 1 none 0).terminated = false ∧
    (speak_result 1 none 0).waitedNaturally = false ∧
    (speak_result 1 none 0).waitedAfterTerminate = false ∧
    (speak_result 1 none 0).outcome = SpeakOutcome.conversionFailed 1 :=
  C8_conversion_failfast 1 none 0 (by decide)

/-- C9: if the designated terminal pattern is never seen in the child's
output, the reader's result is the absent sentinel `none`, which differs
from the empty-but-present `some []`; and the child's exit code, whatever
it is, is reported back unchanged — the routine has no raising path. -/
theorem C9_reader_not_found (lines : List String) (exitCode : Nat)
    (h : ∀ l ∈ lines, isDictKeysLine (pyStrip l) = false) :
    (list_speakers_probe lines exitCode).speakers = none ∧
    (list_speakers_probe lines exitCode).speakers ≠ some [] ∧
    (list_speakers_probe lines exitCode).retcode = exitCode := by
  have hn := readSpeakers_not_found lines h
  simp [list_speakers_probe, hn]

/-- C9, witness: two output lines without the terminal pattern (one of them
an agreement prompt) and a nonzero exit code 3, evaluated through
`C9_reader_not_found`. -/
theorem C9_witness :
    (list_speakers_probe ["abc", "  I agree to the terms of service "] 3).speakers = none ∧
    (list_speakers_probe ["abc", "  I agree to the terms of service "] 3).speakers ≠ some [] ∧
    (list_speakers_probe ["abc", "  I agree to the terms of service "] 3).retcode = 3 :=
  C9_reader_not_found ["abc", "  I agree to the terms of service "] 3 (by decide)

/-- C10: for every message (and every engine path and optional flag value,
spaces, quotes and shell metacharacters included), word-splitting the
`shlex.join`-ed engine line of the guard script recovers exactly the
original argument vector, and the message stands verbatim as the single
argument following `--text`. -/
theorem C10_engine_line_quoting (tts_bin message : String)
    (device model speaker lang : Option String) :
    shellSplit (shlex_join (tts_cmd tts_bin message device model speaker lang)).data
      = some ((tts_cmd tts_bin message device model speaker lang).map String.data) ∧
    (∃ rest, tts_cmd tts_bin message device model speaker lang
      = tts_bin :: "--text" :: message :: rest) := by
  constructor
  · exact split_join ((tts_cmd tts_bin message device model speaker lang).map String.data)
  · refine ⟨"--out_path" :: tmp_output :: "--pipe_out" ::
      (optFlagArg "--use_cuda" device ++ optFlagArg "--model_name" model ++
       optFlagArg "--speaker_idx" speaker ++ optFlagArg "--language_idx" lang), ?_⟩
    simp [tts_cmd, List.append_assoc]

end Say
